import Mathlib

set_option maxHeartbeats 1000000
set_option autoImplicit false

namespace PD

/-!
Shallow embedding of server/grpc_service.go: the request-validation and
heartbeat-multiplexing gRPC layer of the placement coordinator.

External collaborators (the cluster-state store, the id allocator, the operator
watch registry, the gRPC streams) live outside this file in the repository, so
they are modelled as oracle fields of the `Server` value and, for the streaming
endpoints, as input event lists.  Every call into a collaborator is recorded as
an explicit `Effect`, so that the theorems can speak about which operations were
and were not invoked, and which instructions were pushed back to the stream.
-/

/-- Structured error types (pdpb.ErrorType) used by this layer. -/
inductive ErrorType
  | OK
  | UNKNOWN
  | NOT_BOOTSTRAPPED
  | STORE_TOMBSTONE
  | ALREADY_BOOTSTRAPPED
deriving DecidableEq

/-- Structured domain error (pdpb.Error) carried inside a response header. -/
structure PbError where
  type : ErrorType
  message : String
deriving DecidableEq

/-- Request header (pdpb.RequestHeader): carries the claimed cluster id. -/
structure RequestHeader where
  clusterId : Nat
deriving DecidableEq

/-- Response header (pdpb.ResponseHeader): server cluster id plus an optional
structured error. -/
structure ResponseHeader where
  clusterId : Nat
  error : Option PbError := none
deriving DecidableEq

/-- gRPC status codes used in this file. -/
inductive Code
  | Unknown
  | Unavailable
  | FailedPrecondition
deriving DecidableEq

/-- Go error values returned by the handlers: either a grpc status error or a
plain error.  errors.Trace and errors.New preserve the message, so they are
modelled as the identity on messages. -/
inductive GoError
  | grpc (code : Code) (message : String)
  | str (message : String)
deriving DecidableEq

/-- The transport-level rejection returned when this server is not the leader. -/
def notLeaderError : GoError := .grpc .Unavailable "not leader"

/-- Store lifecycle states (metapb.StoreState). -/
inductive StoreState
  | Up
  | Offline
  | Tombstone
deriving DecidableEq

/-- A storage node (metapb.Store). -/
structure Store where
  id : Nat
  address : String := ""
  state : StoreState := .Up
deriving DecidableEq

/-- A region replica (metapb.Peer). -/
structure Peer where
  id : Nat
  storeId : Nat
deriving DecidableEq

/-- A key-range replication unit (metapb.Region).  Keys are byte strings,
modelled as lists of naturals; a missing key is nil. -/
structure Region where
  id : Nat
  startKey : Option (List Nat) := none
  endKey : Option (List Nat) := none
  peers : List Peer := []
deriving DecidableEq

/-- Store statistics reported by a store heartbeat (pdpb.StoreStats). -/
structure StoreStats where
  storeId : Nat
deriving DecidableEq

/-- Cluster-wide configuration (metapb.Cluster). -/
structure ClusterMeta where
  id : Nat
  maxPeerCount : Nat
deriving DecidableEq

/-- An allocated timestamp (pdpb.Timestamp). -/
structure Timestamp where
  physical : Nat
  logical : Nat
deriving DecidableEq

/-- Result of a split request handled by the cluster. -/
structure SplitResult where
  newRegionId : Nat
  newPeerIds : List Nat
deriving DecidableEq

/-- Modelled from the spec: RegionInfo (spec section 3), the region view built
fresh from each heartbeat.  The constructor newRegionInfo lives outside this
file in the repository (server/cache.go); the spec describes it as carrying the
message's region, leader, down peers, pending peers and written bytes. -/
structure RegionInfo where
  region : Option Region
  leader : Option Peer
  downPeers : List Peer := []
  pendingPeers : List Peer := []
  writtenBytes : Nat := 0
deriving DecidableEq

/-- Modelled from the spec: newRegionInfo wraps a heartbeat's region and leader
into a fresh RegionInfo. -/
def newRegionInfo (region : Option Region) (leader : Option Peer) : RegionInfo :=
  { region := region, leader := leader }

/-- Go getter semantics: region.GetId() is 0 when the embedded region is nil. -/
def RegionInfo.GetId (r : RegionInfo) : Nat :=
  match r.region with
  | some rg => rg.id
  | none => 0

/-- Go getter semantics: header.GetClusterId() is 0 when the header is nil. -/
def getClusterId (h : Option RequestHeader) : Nat :=
  match h with
  | some hd => hd.clusterId
  | none => 0

/-- A scheduling instruction pushed back on the heartbeat stream
(pdpb.RegionHeartbeatResponse).  Only the header matters to this layer; the
operator payload is opaque. -/
structure RegionHeartbeatResponse where
  header : Option ResponseHeader := none
deriving DecidableEq

/-- One message of the RegionHeartbeat client stream
(pdpb.RegionHeartbeatRequest). -/
structure RegionHeartbeatRequest where
  header : Option RequestHeader := none
  region : Option Region := none
  leader : Option Peer := none
  downPeers : List Peer := []
  pendingPeers : List Peer := []
  bytesWritten : Nat := 0
deriving DecidableEq

structure GetMembersRequest where
  header : Option RequestHeader := none
deriving DecidableEq

structure GetMembersResponse where
  header : ResponseHeader
  members : List Nat := []
  leader : Nat := 0
deriving DecidableEq

structure TsoRequest where
  header : Option RequestHeader := none
  count : Nat := 0
deriving DecidableEq

structure TsoResponse where
  header : ResponseHeader
  timestamp : Timestamp
  count : Nat
deriving DecidableEq

structure BootstrapRequest where
  header : Option RequestHeader := none
  store : Option Store := none
  region : Option Region := none
deriving DecidableEq

structure BootstrapResponse where
  header : ResponseHeader
deriving DecidableEq

structure IsBootstrappedRequest where
  header : Option RequestHeader := none
deriving DecidableEq

structure IsBootstrappedResponse where
  header : ResponseHeader
  bootstrapped : Bool
deriving DecidableEq

structure AllocIDRequest where
  header : Option RequestHeader := none
deriving DecidableEq

structure AllocIDResponse where
  header : ResponseHeader
  id : Nat
deriving DecidableEq

structure GetStoreRequest where
  header : Option RequestHeader := none
  storeId : Nat := 0
deriving DecidableEq

structure GetStoreResponse where
  header : ResponseHeader
  store : Option Store := none
deriving DecidableEq

structure PutStoreRequest where
  header : Option RequestHeader := none
  store : Option Store := none
deriving DecidableEq

structure PutStoreResponse where
  header : ResponseHeader
deriving DecidableEq

structure StoreHeartbeatRequest where
  header : Option RequestHeader := none
  stats : Option StoreStats := none
deriving DecidableEq

structure StoreHeartbeatResponse where
  header : ResponseHeader
deriving DecidableEq

structure GetRegionRequest where
  header : Option RequestHeader := none
  regionKey : List Nat := []
deriving DecidableEq

structure GetRegionResponse where
  header : ResponseHeader
  region : Option Region := none
  leader : Option Peer := none
deriving DecidableEq

structure GetRegionByIDRequest where
  header : Option RequestHeader := none
  regionId : Nat := 0
deriving DecidableEq

structure AskSplitRequest where
  header : Option RequestHeader := none
  region : Option Region := none
deriving DecidableEq

structure AskSplitResponse where
  header : ResponseHeader
  newRegionId : Nat := 0
  newPeerIds : List Nat := []
deriving DecidableEq

structure ReportSplitRequest where
  header : Option RequestHeader := none
  left : Option Region := none
  right : Option Region := none
deriving DecidableEq

structure ReportSplitResponse where
  header : ResponseHeader
deriving DecidableEq

structure GetClusterConfigRequest where
  header : Option RequestHeader := none
deriving DecidableEq

structure GetClusterConfigResponse where
  header : ResponseHeader
  cluster : Option ClusterMeta := none
deriving DecidableEq

structure PutClusterConfigRequest where
  header : Option RequestHeader := none
  cluster : Option ClusterMeta := none
deriving DecidableEq

structure PutClusterConfigResponse where
  header : ResponseHeader
deriving DecidableEq

/-- Calls this layer makes into its collaborators (cluster-state store, id and
timestamp allocators, the operator watch registry, the outbound stream).  Every
handler records the collaborator calls it performs, in order, so theorems can
state that an operation was or was not invoked. -/
inductive Effect
  | guardCheck
  | getMembersE
  | getLeaderE
  | allocE
  | getRespTSE (count : Nat)
  | bootstrapClusterE
  | getStoreE (storeId : Nat)
  | putStoreE (store : Option Store)
  | storeHeartbeatE (stats : Option StoreStats)
  | ingestE (regionId : Nat)
  | schedE (regionId : Nat)
  | watchOperatorE (storeId : Nat) (uid : Nat)
  | sendToWatcherE (region : RegionInfo) (resp : RegionHeartbeatResponse)
  | tsoSendE (resp : TsoResponse)
  | getRegionByKeyE (key : List Nat)
  | getRegionByIDE (regionId : Nat)
  | askSplitE
  | reportSplitE
  | getConfigE
  | putConfigE (c : Option ClusterMeta)
deriving DecidableEq

/-- Modelled from the spec: the caching layer of the cluster-state store
(spec section 6, collaborator interfaces).  Results of its operations are
oracle functions of the request. -/
structure CachedCluster where
  handleStoreHeartbeat : Option StoreStats → Option String
  handleRegionHeartbeat : RegionInfo → Option String

/-- Modelled from the spec: the cluster-state store collaborator
(spec section 6).  Each field gives the result the external component would
return for a call; a second component of type Option String is the Go error. -/
structure RaftCluster where
  cachedCluster : CachedCluster
  GetStore : Nat → Option Store × Option String
  putStore : Option Store → Option String
  handleRegionHeartbeat : RegionInfo → Except String (Option RegionHeartbeatResponse)
  GetRegionByKey : List Nat → Option Region × Option Peer
  GetRegionByID : Nat → Option Region × Option Peer
  handleAskSplit : AskSplitRequest → Except String SplitResult
  handleReportSplit : ReportSplitRequest → Option String
  GetConfig : Option ClusterMeta
  putConfig : Option ClusterMeta → Option String

/-- The server, with its own identity and leadership state plus oracle results
for every external collaborator call this file makes. -/
structure Server where
  clusterID : Nat
  leaderFlag : Bool
  closed : Bool
  raftCluster : Option RaftCluster
  cfgRegionHeartbeatUnaryMode : Bool
  idAllocRes : Except String Nat
  getRespTSRes : Nat → Except String Timestamp
  membersRes : Except String (List Nat)
  getLeaderRes : Except String Nat
  bootstrapRes : Except String RaftCluster

/-- Modelled from the spec: s.IsLeader() reads the leadership flag maintained
by the external election component. -/
def Server.IsLeader (s : Server) : Bool := s.leaderFlag

/-- Modelled from the spec: s.isClosed() reads the server shutdown flag. -/
def Server.isClosed (s : Server) : Bool := s.closed

/-- Modelled from the spec: s.GetRaftCluster() is the bootstrap state — nil
before the cluster is bootstrapped. -/
def Server.GetRaftCluster (s : Server) : Option RaftCluster := s.raftCluster

/-- Message of the cluster-id mismatch rejection; it carries both the expected
and the received cluster ids. -/
def mismatchClusterMessage (need got : Nat) : String :=
  "mismatch cluster id, need " ++ toString need ++ " but got " ++ toString got

/-- validateRequest checks if Server is leader and clusterID is matched. -/
def Server.validateRequest (s : Server) (header : Option RequestHeader) :
    Option GoError :=
  if !s.IsLeader then some notLeaderError
  else if getClusterId header ≠ s.clusterID then
    some (.grpc .FailedPrecondition
      (mismatchClusterMessage s.clusterID (getClusterId header)))
  else none

/-- header() builds the plain success response header. -/
def Server.header (s : Server) : ResponseHeader :=
  { clusterId := s.clusterID }

/-- errorHeader(err) builds a response header carrying a structured error. -/
def Server.errorHeader (s : Server) (err : PbError) : ResponseHeader :=
  { clusterId := s.clusterID, error := some err }

/-- notBootstrappedHeader() is the NOT_BOOTSTRAPPED domain-error header. -/
def Server.notBootstrappedHeader (s : Server) : ResponseHeader :=
  s.errorHeader { type := .NOT_BOOTSTRAPPED, message := "cluster is not bootstrapped" }

/-- checkStore2 returns an error response if the store exists and is in
tombstone state.  It returns nil if it can't get the store. -/
def checkStore2 (cluster : RaftCluster) (storeID : Nat) : Option PbError :=
  match cluster.GetStore storeID with
  | (some store, none) =>
    if store.state = .Tombstone then
      some { type := .STORE_TOMBSTONE, message := "store is tombstone" }
    else none
  | _ => none

/-- sendErrorRegionHeartbeatResponse builds a RegionHeartbeatResponse whose
header carries the given structured error and hands it to the coordinator's
sendToWatcher; it returns nil unconditionally.  The first component is the Go
return value, the second the collaborator calls performed. -/
def sendErrorRegionHeartbeatResponse (region : RegionInfo) (clusterID : Nat)
    (ty : ErrorType) (msg : String) : Option String × List Effect :=
  let pberr : PbError := { type := ty, message := msg }
  let resp : RegionHeartbeatResponse :=
    { header := some { clusterId := clusterID, error := some pberr } }
  (none, [.sendToWatcherE region resp])

/-- GetMembers implements gRPC PDServer (source lines 34-53).  It checks only
that the server is not closed; the request is ignored by the Go code. -/
def Server.GetMembers (s : Server) (_ : GetMembersRequest) :
    Except GoError GetMembersResponse × List Effect :=
  if s.isClosed then (.error (.grpc .Unknown "server not started"), [])
  else
    match s.membersRes with
    | .error e => (.error (.grpc .Unknown e), [.getMembersE])
    | .ok members =>
      match s.getLeaderRes with
      | .error e => (.error (.grpc .Unknown e), [.getMembersE, .getLeaderE])
      | .ok leader =>
        (.ok { header := s.header, members := members, leader := leader },
         [.getMembersE, .getLeaderE])

/-- Bootstrap implements gRPC PDServer (source lines 85-107).  The middle
component is the server after the call: bootstrapping installs the created
cluster-state store. -/
def Server.Bootstrap (s : Server) (request : BootstrapRequest) :
    Except GoError BootstrapResponse × Server × List Effect :=
  match s.validateRequest request.header with
  | some e => (.error e, s, [.guardCheck])
  | none =>
    match s.GetRaftCluster with
    | some _ =>
      let err : PbError :=
        { type := .ALREADY_BOOTSTRAPPED, message := "cluster is already bootstrapped" }
      (.ok { header := s.errorHeader err }, s, [.guardCheck])
    | none =>
      match s.bootstrapRes with
      | .error e => (.error (.grpc .Unknown e), s, [.guardCheck, .bootstrapClusterE])
      | .ok c =>
        (.ok { header := s.header }, { s with raftCluster := some c },
         [.guardCheck, .bootstrapClusterE])

/-- IsBootstrapped implements gRPC PDServer (source lines 110-120). -/
def Server.IsBootstrapped (s : Server) (request : IsBootstrappedRequest) :
    Except GoError IsBootstrappedResponse × List Effect :=
  match s.validateRequest request.header with
  | some e => (.error e, [.guardCheck])
  | none =>
    (.ok { header := s.header, bootstrapped := s.GetRaftCluster.isSome }, [.guardCheck])

/-- AllocID implements gRPC PDServer (source lines 123-138). -/
def Server.AllocID (s : Server) (request : AllocIDRequest) :
    Except GoError AllocIDResponse × List Effect :=
  match s.validateRequest request.header with
  | some e => (.error e, [.guardCheck])
  | none =>
    match s.idAllocRes with
    | .error e => (.error (.grpc .Unknown e), [.guardCheck, .allocE])
    | .ok id => (.ok { header := s.header, id := id }, [.guardCheck, .allocE])

/-- GetStore implements gRPC PDServer (source lines 141-159). -/
def Server.GetStore (s : Server) (request : GetStoreRequest) :
    Except GoError GetStoreResponse × List Effect :=
  match s.validateRequest request.header with
  | some e => (.error e, [.guardCheck])
  | none =>
    match s.GetRaftCluster with
    | none => (.ok { header := s.notBootstrappedHeader }, [.guardCheck])
    | some cluster =>
      match cluster.GetStore request.storeId with
      | (_, some e) => (.error (.grpc .Unknown e), [.guardCheck, .getStoreE request.storeId])
      | (store, none) =>
        (.ok { header := s.header, store := store }, [.guardCheck, .getStoreE request.storeId])

/-- PutStore implements gRPC PDServer (source lines 178-204). -/
def Server.PutStore (s : Server) (request : PutStoreRequest) :
    Except GoError PutStoreResponse × List Effect :=
  match s.validateRequest request.header with
  | some e => (.error e, [.guardCheck])
  | none =>
    match s.GetRaftCluster with
    | none => (.ok { header := s.notBootstrappedHeader }, [.guardCheck])
    | some cluster =>
      let store := request.store
      let storeId := (store.map Store.id).getD 0
      match checkStore2 cluster storeId with
      | some pberr =>
        (.ok { header := s.errorHeader pberr }, [.guardCheck, .getStoreE storeId])
      | none =>
        match cluster.putStore store with
        | some e =>
          (.error (.grpc .Unknown e), [.guardCheck, .getStoreE storeId, .putStoreE store])
        | none =>
          (.ok { header := s.header }, [.guardCheck, .getStoreE storeId, .putStoreE store])

/-- StoreHeartbeat implements gRPC PDServer (source lines 207-234). -/
def Server.StoreHeartbeat (s : Server) (request : StoreHeartbeatRequest) :
    Except GoError StoreHeartbeatResponse × List Effect :=
  match s.validateRequest request.header with
  | some e => (.error e, [.guardCheck])
  | none =>
    match request.stats with
    | none => (.error (.str "invalid store heartbeat command"), [.guardCheck])
    | some stats =>
      match s.GetRaftCluster with
      | none => (.ok { header := s.notBootstrappedHeader }, [.guardCheck])
      | some cluster =>
        match checkStore2 cluster stats.storeId with
        | some pberr =>
          (.ok { header := s.errorHeader pberr }, [.guardCheck, .getStoreE stats.storeId])
        | none =>
          match cluster.cachedCluster.handleStoreHeartbeat (some stats) with
          | some e =>
            (.error (.grpc .Unknown e),
             [.guardCheck, .getStoreE stats.storeId, .storeHeartbeatE (some stats)])
          | none =>
            (.ok { header := s.header },
             [.guardCheck, .getStoreE stats.storeId, .storeHeartbeatE (some stats)])

/-- GetRegion implements gRPC PDServer (source lines 352-368). -/
def Server.GetRegion (s : Server) (request : GetRegionRequest) :
    Except GoError GetRegionResponse × List Effect :=
  match s.validateRequest request.header with
  | some e => (.error e, [.guardCheck])
  | none =>
    match s.GetRaftCluster with
    | none => (.ok { header := s.notBootstrappedHeader }, [.guardCheck])
    | some cluster =>
      match cluster.GetRegionByKey request.regionKey with
      | (region, leader) =>
        (.ok { header := s.header, region := region, leader := leader },
         [.guardCheck, .getRegionByKeyE request.regionKey])

/-- GetRegionByID implements gRPC PDServer (source lines 371-387). -/
def Server.GetRegionByID (s : Server) (request : GetRegionByIDRequest) :
    Except GoError GetRegionResponse × List Effect :=
  match s.validateRequest request.header with
  | some e => (.error e, [.guardCheck])
  | none =>
    match s.GetRaftCluster with
    | none => (.ok { header := s.notBootstrappedHeader }, [.guardCheck])
    | some cluster =>
      match cluster.GetRegionByID request.regionId with
      | (region, leader) =>
        (.ok { header := s.header, region := region, leader := leader },
         [.guardCheck, .getRegionByIDE request.regionId])

/-- AskSplit implements gRPC PDServer (source lines 390-415). -/
def Server.AskSplit (s : Server) (request : AskSplitRequest) :
    Except GoError AskSplitResponse × List Effect :=
  match s.validateRequest request.header with
  | some e => (.error e, [.guardCheck])
  | none =>
    match s.GetRaftCluster with
    | none => (.ok { header := s.notBootstrappedHeader }, [.guardCheck])
    | some cluster =>
      match request.region.bind Region.startKey with
      | none => (.error (.str "missing region start key for split"), [.guardCheck])
      | some _ =>
        match cluster.handleAskSplit ({ region := request.region }) with
        | .error e => (.error (.grpc .Unknown e), [.guardCheck, .askSplitE])
        | .ok split =>
          (.ok { header := s.header, newRegionId := split.newRegionId,
                 newPeerIds := split.newPeerIds },
           [.guardCheck, .askSplitE])

/-- ReportSplit implements gRPC PDServer (source lines 418-435). -/
def Server.ReportSplit (s : Server) (request : ReportSplitRequest) :
    Except GoError ReportSplitResponse × List Effect :=
  match s.validateRequest request.header with
  | some e => (.error e, [.guardCheck])
  | none =>
    match s.GetRaftCluster with
    | none => (.ok { header := s.notBootstrappedHeader }, [.guardCheck])
    | some cluster =>
      match cluster.handleReportSplit request with
      | some e => (.error (.grpc .Unknown e), [.guardCheck, .reportSplitE])
      | none => (.ok { header := s.header }, [.guardCheck, .reportSplitE])

/-- GetClusterConfig implements gRPC PDServer (source lines 438-451). -/
def Server.GetClusterConfig (s : Server) (request : GetClusterConfigRequest) :
    Except GoError GetClusterConfigResponse × List Effect :=
  match s.validateRequest request.header with
  | some e => (.error e, [.guardCheck])
  | none =>
    match s.GetRaftCluster with
    | none => (.ok { header := s.notBootstrappedHeader }, [.guardCheck])
    | some cluster =>
      (.ok { header := s.header, cluster := cluster.GetConfig },
       [.guardCheck, .getConfigE])

/-- PutClusterConfig implements gRPC PDServer (source lines 454-473). -/
def Server.PutClusterConfig (s : Server) (request : PutClusterConfigRequest) :
    Except GoError PutClusterConfigResponse × List Effect :=
  match s.validateRequest request.header with
  | some e => (.error e, [.guardCheck])
  | none =>
    match s.GetRaftCluster with
    | none => (.ok { header := s.notBootstrappedHeader }, [.guardCheck])
    | some cluster =>
      let conf := request.cluster
      match cluster.putConfig conf with
      | some e => (.error (.grpc .Unknown e), [.guardCheck, .putConfigE conf])
      | none => (.ok { header := s.header }, [.guardCheck, .putConfigE conf])

/-- One observable event of the Tso client stream: end of stream, a receive
failure, or an inbound request.  A request event also carries the outcome the
network write of the response would have (nil on success), since the stream is
an external collaborator. -/
inductive TsoEvent
  | recvEOF
  | recvErr (msg : String)
  | msg (request : TsoRequest) (sendResult : Option String)
deriving DecidableEq

/-- Tso implements gRPC PDServer (source lines 56-82), run over a finite
prefix of stream events.  The first component is some r once the handler
returns (r = none being a nil error), and none while the loop is still
waiting for further events; the second component is the trace of collaborator
calls. -/
def Server.tsoRun (s : Server) :
    List TsoEvent → Option (Option GoError) × List Effect
  | [] => (none, [])
  | .recvEOF :: _ => (some none, [])
  | .recvErr e :: _ => (some (some (.str e)), [])
  | .msg request sres :: rest =>
    match s.validateRequest request.header with
    | some e => (some (some e), [.guardCheck])
    | none =>
      match s.getRespTSRes request.count with
      | .error e =>
        (some (some (.grpc .Unknown e)), [.guardCheck, .getRespTSE request.count])
      | .ok ts =>
        let resp : TsoResponse :=
          { header := s.header, timestamp := ts, count := request.count }
        match sres with
        | some e =>
          (some (some (.str e)),
           [.guardCheck, .getRespTSE request.count, .tsoSendE resp])
        | none =>
          match s.tsoRun rest with
          | (r, effs) =>
            (r, .guardCheck :: .getRespTSE request.count :: .tsoSendE resp :: effs)

/-- One observable event of the RegionHeartbeat receive loop: a pending pusher
failure on the shared error channel (picked up by the select at the top of the
loop), end of stream, a receive failure, or an inbound heartbeat message. -/
inductive LoopEvent
  | errChan (msg : String)
  | recvEOF
  | recvErr (msg : String)
  | msg (request : RegionHeartbeatRequest)
deriving DecidableEq

/-- Outcome of one iteration of the RegionHeartbeat receive loop: either the
loop continues with the given isNewStream flag, or the handler returns. -/
inductive StepResult
  | cont (isNewStream : Bool)
  | ret (res : Option GoError)
deriving DecidableEq

/-- The RegionInfo built from one heartbeat message (source lines 286-289). -/
def mkRegionInfo (request : RegionHeartbeatRequest) : RegionInfo :=
  { newRegionInfo request.region request.leader with
      downPeers := request.downPeers
      pendingPeers := request.pendingPeers
      writtenBytes := request.bytesWritten }

/-- The per-message part of the RegionHeartbeat receive loop after stream
admission (source lines 286-347): the bootstrap check, the region and leader
validity checks, the two heartbeat-ingestion calls, and the unary-mode
workaround.  pre is the trace of the collaborator calls already made for this
message (the first-message admission). -/
def Server.regionHeartbeatBody (s : Server) (request : RegionHeartbeatRequest)
    (pre : List Effect) : StepResult × List Effect :=
  let region := mkRegionInfo request
  match s.GetRaftCluster with
  | none =>
    match sendErrorRegionHeartbeatResponse region s.clusterID .UNKNOWN
        "cluster is not bootstrapped" with
    | (some e, effs) => (.ret (some (.str e)), pre ++ effs)
    | (none, effs) => (.cont false, pre ++ effs)
  | some cluster =>
    if region.GetId = 0 then
      match sendErrorRegionHeartbeatResponse region s.clusterID .UNKNOWN
          "invalid request region" with
      | (some e, effs) => (.ret (some (.str e)), pre ++ effs)
      | (none, effs) => (.cont false, pre ++ effs)
    else if region.leader = none then
      match sendErrorRegionHeartbeatResponse region s.clusterID .UNKNOWN
          "invalid request leader" with
      | (some e, effs) => (.ret (some (.str e)), pre ++ effs)
      | (none, effs) => (.cont false, pre ++ effs)
    else
      match cluster.cachedCluster.handleRegionHeartbeat region with
      | some herr =>
        match sendErrorRegionHeartbeatResponse region s.clusterID .UNKNOWN herr with
        | (some e, effs) => (.ret (some (.str e)), pre ++ [.ingestE region.GetId] ++ effs)
        | (none, effs) => (.cont false, pre ++ [.ingestE region.GetId] ++ effs)
      | none =>
        match cluster.handleRegionHeartbeat region with
        | .error herr =>
          match sendErrorRegionHeartbeatResponse region s.clusterID .UNKNOWN herr with
          | (some e, effs) =>
            (.ret (some (.str e)), pre ++ [.ingestE region.GetId, .schedE region.GetId] ++ effs)
          | (none, effs) =>
            (.cont false, pre ++ [.ingestE region.GetId, .schedE region.GetId] ++ effs)
        | .ok resp =>
          match resp with
          | none =>
            if s.cfgRegionHeartbeatUnaryMode then
              (.cont false,
               pre ++ [.ingestE region.GetId, .schedE region.GetId,
                 .sendToWatcherE region ({ header := none })])
            else
              (.cont false, pre ++ [.ingestE region.GetId, .schedE region.GetId])
          | some _ =>
            (.cont false, pre ++ [.ingestE region.GetId, .schedE region.GetId])

/-- One iteration of the RegionHeartbeat receive loop (source lines 259-348):
the errChan select, Recv, the one-time stream admission (guard check, store id
derivation from the declared leader, subscriber-id allocation, watch
registration and pusher start), then the per-message body. -/
def Server.regionHeartbeatStep (s : Server) (isNewStream : Bool) (ev : LoopEvent) :
    StepResult × List Effect :=
  match ev with
  | .errChan e => (.ret (some (.str e)), [])
  | .recvEOF => (.ret none, [])
  | .recvErr e => (.ret (some (.str e)), [])
  | .msg request =>
    if isNewStream then
      match s.validateRequest request.header with
      | some e => (.ret (some e), [.guardCheck])
      | none =>
        match s.idAllocRes with
        | .error e => (.ret (some (.str e)), [.guardCheck, .allocE])
        | .ok uid =>
          s.regionHeartbeatBody request
            [.guardCheck, .allocE,
             .watchOperatorE ((request.leader.map Peer.storeId).getD 0) uid]
    else
      s.regionHeartbeatBody request []

/-- The RegionHeartbeat receive loop run over a finite prefix of events,
starting from the given isNewStream flag.  The first component is some r once
the handler returns, none while the loop is still waiting. -/
def Server.regionHeartbeatRun (s : Server) :
    Bool → List LoopEvent → Option (Option GoError) × List Effect
  | _, [] => (none, [])
  | b, ev :: rest =>
    match s.regionHeartbeatStep b ev with
    | (.ret r, effs) => (some r, effs)
    | (.cont b', effs) =>
      match s.regionHeartbeatRun b' rest with
      | (r, effs') => (r, effs ++ effs')

/-- RegionHeartbeat implements gRPC PDServer (source lines 256-349): the
receive loop starts with isNewStream = true. -/
def Server.RegionHeartbeat (s : Server) (evs : List LoopEvent) :
    Option (Option GoError) × List Effect :=
  s.regionHeartbeatRun true evs

/-- One observable event of the pusher goroutine: context cancellation, or one
instruction taken from the watch subscription together with the outcome the
stream write of it would have (nil on success). -/
inductive PusherEvent
  | ctxDone
  | instr (resp : RegionHeartbeatResponse) (sendResult : Option String)
deriving DecidableEq

/-- Observable actions of the pusher goroutine: a write of an instruction to
the stream, the report of a write outcome through the instruction's dedicated
acknowledgement slot (req.err), and a failure signal on the shared error
channel. -/
inductive PushEffect
  | sent (resp : RegionHeartbeatResponse)
  | ack (resp : RegionHeartbeatResponse) (result : Option String)
  | errChanSignal (msg : String)
deriving DecidableEq

/-- pushRegionHeartbeatResponse (source lines 236-253): the pusher drains the
watch subscription; for each instruction it overwrites the header with the
server header, writes it to the stream, reports the outcome through the
instruction's acknowledgement slot, and on a failed write signals the shared
error channel and stops. -/
def Server.pushRegionHeartbeatResponse (s : Server) :
    List PusherEvent → List PushEffect
  | [] => []
  | .ctxDone :: _ => []
  | .instr resp sendResult :: rest =>
    let resp' := { resp with header := some s.header }
    .sent resp' :: .ack resp sendResult ::
      match sendResult with
      | some e => [.errChanSignal e]
      | none => s.pushRegionHeartbeatResponse rest

/-- Region id of a cluster-state heartbeat-ingestion call, if the effect is one. -/
def Effect.ingestId : Effect → Option Nat
  | .ingestE i => some i
  | _ => none

/-- Region id of a scheduling-path heartbeat call, if the effect is one. -/
def Effect.schedId : Effect → Option Nat
  | .schedE i => some i
  | _ => none

/-- The structured error type carried by a pushed instruction's header. -/
def respErrType (r : RegionHeartbeatResponse) : Option ErrorType :=
  match r.header with
  | some h =>
    match h.error with
    | some e => some e.type
    | none => none
  | none => none

/-- The structured error message carried by a pushed instruction's header. -/
def respErrMsg (r : RegionHeartbeatResponse) : Option String :=
  match r.header with
  | some h =>
    match h.error with
    | some e => some e.message
    | none => none
  | none => none

/-- For a sendToWatcher effect, the error type of the pushed instruction. -/
def Effect.pushedErrType : Effect → Option (Option ErrorType)
  | .sendToWatcherE _ r => some (respErrType r)
  | _ => none

/-- For a sendToWatcher effect, the error message of the pushed instruction. -/
def Effect.pushedErrMsg : Effect → Option (Option String)
  | .sendToWatcherE _ r => some (respErrMsg r)
  | _ => none

/-- Region ids of the cluster-state ingestion calls in a trace. -/
def ingests (effs : List Effect) : List Nat := effs.filterMap Effect.ingestId

/-- Region ids of the scheduling-path heartbeat calls in a trace. -/
def scheds (effs : List Effect) : List Nat := effs.filterMap Effect.schedId

/-- Error types of the instructions pushed through sendToWatcher in a trace. -/
def pushedErrTypes (effs : List Effect) : List (Option ErrorType) :=
  effs.filterMap Effect.pushedErrType

/-- Error messages of the instructions pushed through sendToWatcher in a trace. -/
def pushedErrMsgs (effs : List Effect) : List (Option String) :=
  effs.filterMap Effect.pushedErrMsg

/-- Number of Cluster Identity Guard invocations in a trace. -/
def countGuard (effs : List Effect) : Nat :=
  effs.countP fun e => e == Effect.guardCheck

/-- The cluster id carried by a response header inside an effect, when the
effect carries a populated header. -/
def Effect.headerId : Effect → Option Nat
  | .sendToWatcherE _ r =>
    (match r.header with
     | some h => some h.clusterId
     | none => none)
  | .tsoSendE r => some r.header.clusterId
  | _ => none

/-- Every response header occurring in the trace carries the given cluster id. -/
def headersOk (cid : Nat) (effs : List Effect) : Bool :=
  effs.all fun e =>
    match e.headerId with
    | some i => i == cid
    | none => true

/-- A pusher trace is well formed for a given server header when it is a
sequence of sent/ack pairs — each write carrying the server header and each
acknowledgement reporting that write's outcome for the same instruction —
where a failed write is followed by exactly the error-channel signal and
nothing else, and a successful write by the next pair. -/
def pusherTraceOk (hdr : ResponseHeader) : List PushEffect → Bool
  | [] => true
  | .sent r :: .ack r' res :: rest =>
    (r == { r' with header := some hdr }) &&
      (match res with
       | none => pusherTraceOk hdr rest
       | some e => rest == [.errChanSignal e])
  | _ => false

/-- After a signal on the shared error channel, the pusher emits nothing. -/
def stopsAfterSignal : List PushEffect → Bool
  | [] => true
  | .errChanSignal _ :: rest => rest == []
  | _ :: rest => stopsAfterSignal rest

/-- Each sent instruction carries a populated header with the given cluster id. -/
def pushSentHeadersOk (cid : Nat) (effs : List PushEffect) : Bool :=
  effs.all fun e =>
    match e with
    | .sent r =>
      (match r.header with
       | some h => h.clusterId == cid
       | none => false)
    | _ => true

/-- Sample store statistics for concrete runs. -/
def sampleStats : StoreStats := { storeId := 1 }

/-- Sample peer for concrete runs. -/
def samplePeer : Peer := { id := 1, storeId := 1 }

/-- Sample region for concrete runs. -/
def sampleRegion : Region :=
  { id := 7, startKey := some [0], endKey := none, peers := [samplePeer] }

/-- Sample caching layer whose operations all succeed. -/
def sampleCachedCluster : CachedCluster :=
  { handleStoreHeartbeat := fun _ => none
    handleRegionHeartbeat := fun _ => none }

/-- Sample cluster-state store whose operations all succeed and whose stores
are all Up. -/
def sampleCluster : RaftCluster :=
  { cachedCluster := sampleCachedCluster
    GetStore := fun i => (some { id := i, state := .Up }, none)
    putStore := fun _ => none
    handleRegionHeartbeat := fun _ => .ok none
    GetRegionByKey := fun _ => (some sampleRegion, some samplePeer)
    GetRegionByID := fun _ => (some sampleRegion, some samplePeer)
    handleAskSplit := fun _ => .ok { newRegionId := 10, newPeerIds := [11] }
    handleReportSplit := fun _ => none
    GetConfig := some { id := 1, maxPeerCount := 3 }
    putConfig := fun _ => none }

/-- Sample leader server with cluster id 1 and a bootstrapped cluster. -/
def baseServer : Server :=
  { clusterID := 1
    leaderFlag := true
    closed := false
    raftCluster := some sampleCluster
    cfgRegionHeartbeatUnaryMode := false
    idAllocRes := .ok 5
    getRespTSRes := fun c => .ok { physical := 100, logical := c }
    membersRes := .ok [1, 2]
    getLeaderRes := .ok 1
    bootstrapRes := .ok sampleCluster }

/-- The base server before bootstrap (no cluster-state store yet). -/
def nbServer : Server := { baseServer with raftCluster := none }

/-- The base server while not the leader. -/
def followerServer : Server := { baseServer with leaderFlag := false }

/-- A cluster-state store whose stores are all tombstoned. -/
def tombCluster : RaftCluster :=
  { sampleCluster with GetStore := fun i => (some { id := i, state := .Tombstone }, none) }

/-- The base server over the tombstoned store state. -/
def tombServer : Server := { baseServer with raftCluster := some tombCluster }

/-- A cluster-state store whose lookup finds no store (and no error). -/
def noStoreCluster : RaftCluster :=
  { sampleCluster with GetStore := fun _ => (none, none) }

/-- The base server over the empty store state. -/
def noStoreServer : Server := { baseServer with raftCluster := some noStoreCluster }

/-- A well-formed heartbeat request for cluster 1 (region 7, leader present). -/
def validHBReq : RegionHeartbeatRequest :=
  { header := some { clusterId := 1 }, region := some sampleRegion,
    leader := some samplePeer }

/-- A heartbeat request whose region has id 0. -/
def malformedHBReq : RegionHeartbeatRequest :=
  { header := some { clusterId := 1 }, region := some { id := 0 },
    leader := some samplePeer }

/-- A valid Tso request for cluster 1. -/
def tsoReq1 : TsoRequest := { header := some { clusterId := 1 }, count := 3 }

/-!  Shared lemmas. -/

theorem regionHeartbeatBody_cont (s : Server) (request : RegionHeartbeatRequest)
    (pre : List Effect) : (s.regionHeartbeatBody request pre).1 = .cont false := by
  unfold Server.regionHeartbeatBody
  simp only [sendErrorRegionHeartbeatResponse]
  repeat' split
  all_goals rfl

theorem regionHeartbeatBody_malformed (s : Server) (request : RegionHeartbeatRequest)
    (pre : List Effect)
    (hmal : (newRegionInfo request.region request.leader).GetId = 0 ∨ request.leader = none) :
    ingests (s.regionHeartbeatBody request pre).2 = ingests pre ∧
    scheds (s.regionHeartbeatBody request pre).2 = scheds pre ∧
    pushedErrTypes (s.regionHeartbeatBody request pre).2 =
      pushedErrTypes pre ++ [some .UNKNOWN] := by
  have hmk_id : (mkRegionInfo request).GetId = (newRegionInfo request.region request.leader).GetId := rfl
  have hmk_l : (mkRegionInfo request).leader = request.leader := rfl
  unfold Server.regionHeartbeatBody
  simp only [sendErrorRegionHeartbeatResponse]
  cases hc : s.GetRaftCluster with
  | none =>
    simp [ingests, scheds, pushedErrTypes, Effect.ingestId, Effect.schedId,
      Effect.pushedErrType, respErrType, List.filterMap_append]
  | some cluster =>
    by_cases h0 : (mkRegionInfo request).GetId = 0
    · simp [h0, ingests, scheds, pushedErrTypes, Effect.ingestId, Effect.schedId,
        Effect.pushedErrType, respErrType, List.filterMap_append]
    · have hl : (mkRegionInfo request).leader = none := by
        rcases hmal with h | h
        · exact absurd (hmk_id.trans h) h0
        · rw [hmk_l]; exact h
      simp [h0, hl, ingests, scheds, pushedErrTypes, Effect.ingestId, Effect.schedId,
        Effect.pushedErrType, respErrType, List.filterMap_append]

/-- Claim C10: sendErrorRegionHeartbeatResponse returns nil for every input, so
pushing a synthesized per-message error instruction can itself never fail; in
consequence the error-return branches that follow each of its calls in the
RegionHeartbeat receive loop are unreachable — the per-message body always
continues the loop (it never returns through that path), and so does any
non-first processed message. -/
theorem sendErrorRegionHeartbeat_never_fails :
    (∀ (region : RegionInfo) (cid : Nat) (ty : ErrorType) (msg : String),
       (sendErrorRegionHeartbeatResponse region cid ty msg).1 = none) ∧
    (∀ (s : Server) (request : RegionHeartbeatRequest) (pre : List Effect),
       (s.regionHeartbeatBody request pre).1 = .cont false) ∧
    (∀ (s : Server) (request : RegionHeartbeatRequest),
       (s.regionHeartbeatStep false (.msg request)).1 = .cont false) :=
  ⟨fun _ _ _ _ => rfl, regionHeartbeatBody_cont,
   fun s request => regionHeartbeatBody_cont s request []⟩

/-- Claim C1: a RegionHeartbeat stream message whose region has id 0 or whose
leader is absent is never forwarded to cluster-state heartbeat ingestion nor to
the scheduling path; instead exactly one synthesized error instruction, of type
UNKNOWN, is pushed back through the watch/response path, and the receive loop
continues (the stream is not terminated by it).  For the first message of a
stream this assumes stream admission — the guard check and the subscriber-id
allocation — succeeds. -/
theorem regionHeartbeat_malformed_message (s : Server) (b : Bool)
    (request : RegionHeartbeatRequest)
    (hmal : (newRegionInfo request.region request.leader).GetId = 0 ∨ request.leader = none)
    (hval : b = true → s.validateRequest request.header = none)
    (halloc : b = true → ∃ uid, s.idAllocRes = .ok uid) :
    (s.regionHeartbeatStep b (.msg request)).1 = .cont false ∧
    ingests (s.regionHeartbeatStep b (.msg request)).2 = [] ∧
    scheds (s.regionHeartbeatStep b (.msg request)).2 = [] ∧
    pushedErrTypes (s.regionHeartbeatStep b (.msg request)).2 = [some .UNKNOWN] := by
  cases b with
  | false =>
    have hstep : s.regionHeartbeatStep false (.msg request) =
        s.regionHeartbeatBody request [] := rfl
    rw [hstep]
    obtain ⟨h1, h2, h3⟩ := regionHeartbeatBody_malformed s request [] hmal
    exact ⟨regionHeartbeatBody_cont s request [], by
      simpa [ingests] using h1, by simpa [scheds] using h2, by
      simpa [pushedErrTypes] using h3⟩
  | true =>
    obtain ⟨uid, huid⟩ := halloc rfl
    have hv := hval rfl
    have hstep : s.regionHeartbeatStep true (.msg request) =
        s.regionHeartbeatBody request
          [.guardCheck, .allocE,
           .watchOperatorE ((request.leader.map Peer.storeId).getD 0) uid] := by
      unfold Server.regionHeartbeatStep
      simp [hv, huid]
    rw [hstep]
    obtain ⟨h1, h2, h3⟩ := regionHeartbeatBody_malformed s request
      [.guardCheck, .allocE,
       .watchOperatorE ((request.leader.map Peer.storeId).getD 0) uid] hmal
    refine ⟨regionHeartbeatBody_cont s request _, ?_, ?_, ?_⟩
    · simpa [ingests, Effect.ingestId] using h1
    · simpa [scheds, Effect.schedId] using h2
    · simpa [pushedErrTypes, Effect.pushedErrType] using h3

/-- Witness for claim C1 at a concrete malformed message (region id 0) on the
first message of a stream of the sample bootstrapped leader server. -/
theorem regionHeartbeat_malformed_message_witness :
    (baseServer.regionHeartbeatStep true (.msg malformedHBReq)).1 = .cont false ∧
    ingests (baseServer.regionHeartbeatStep true (.msg malformedHBReq)).2 = [] ∧
    scheds (baseServer.regionHeartbeatStep true (.msg malformedHBReq)).2 = [] ∧
    pushedErrTypes (baseServer.regionHeartbeatStep true (.msg malformedHBReq)).2 =
      [some .UNKNOWN] :=
  regionHeartbeat_malformed_message baseServer true malformedHBReq
    (Or.inl rfl) (fun _ => by decide) (fun _ => ⟨5, rfl⟩)

/-- Counterexample to claim C2 as stated: on the sample leader server before
bootstrap, a well-formed RegionHeartbeat stream message yields a pushed error
instruction whose structured error type is UNKNOWN — not NOT_BOOTSTRAPPED as
the claim requires for heartbeats — while ingestion is indeed not invoked. -/
theorem regionHeartbeat_notBootstrapped_type_counterexample :
    pushedErrTypes (nbServer.regionHeartbeatStep true (.msg validHBReq)).2 =
      [some .UNKNOWN] ∧
    pushedErrMsgs (nbServer.regionHeartbeatStep true (.msg validHBReq)).2 =
      [some "cluster is not bootstrapped"] ∧
    ingests (nbServer.regionHeartbeatStep true (.msg validHBReq)).2 = [] ∧
    ErrorType.UNKNOWN ≠ ErrorType.NOT_BOOTSTRAPPED := by decide

/-- Claim C2 (amended): while the cluster is unbootstrapped, every unary
cluster-state operation — GetStore, PutStore, StoreHeartbeat (with non-nil
stats), GetRegion, GetRegionByID, AskSplit, ReportSplit, GetClusterConfig,
PutClusterConfig — whose guard check passes returns a structurally successful
response whose envelope is exactly the NOT_BOOTSTRAPPED header, and performs no
collaborator call beyond the guard check; a RegionHeartbeat stream message in
the same state is likewise never ingested, but is answered by exactly one
pushed error instruction whose structured error has type UNKNOWN and message
"cluster is not bootstrapped", after which the loop continues. -/
theorem notBootstrapped_gate :
    (∀ (s : Server) (request : GetStoreRequest),
       s.validateRequest request.header = none → s.raftCluster = none →
       s.GetStore request = (.ok { header := s.notBootstrappedHeader }, [.guardCheck])) ∧
    (∀ (s : Server) (request : PutStoreRequest),
       s.validateRequest request.header = none → s.raftCluster = none →
       s.PutStore request = (.ok { header := s.notBootstrappedHeader }, [.guardCheck])) ∧
    (∀ (s : Server) (request : StoreHeartbeatRequest) (st : StoreStats),
       s.validateRequest request.header = none → request.stats = some st →
       s.raftCluster = none →
       s.StoreHeartbeat request =
         (.ok { header := s.notBootstrappedHeader }, [.guardCheck])) ∧
    (∀ (s : Server) (request : GetRegionRequest),
       s.validateRequest request.header = none → s.raftCluster = none →
       s.GetRegion request = (.ok { header := s.notBootstrappedHeader }, [.guardCheck])) ∧
    (∀ (s : Server) (request : GetRegionByIDRequest),
       s.validateRequest request.header = none → s.raftCluster = none →
       s.GetRegionByID request = (.ok { header := s.notBootstrappedHeader }, [.guardCheck])) ∧
    (∀ (s : Server) (request : AskSplitRequest),
       s.validateRequest request.header = none → s.raftCluster = none →
       s.AskSplit request = (.ok { header := s.notBootstrappedHeader }, [.guardCheck])) ∧
    (∀ (s : Server) (request : ReportSplitRequest),
       s.validateRequest request.header = none → s.raftCluster = none →
       s.ReportSplit request = (.ok { header := s.notBootstrappedHeader }, [.guardCheck])) ∧
    (∀ (s : Server) (request : GetClusterConfigRequest),
       s.validateRequest request.header = none → s.raftCluster = none →
       s.GetClusterConfig request =
         (.ok { header := s.notBootstrappedHeader }, [.guardCheck])) ∧
    (∀ (s : Server) (request : PutClusterConfigRequest),
       s.validateRequest request.header = none → s.raftCluster = none →
       s.PutClusterConfig request =
         (.ok { header := s.notBootstrappedHeader }, [.guardCheck])) ∧
    (∀ (s : Server) (b : Bool) (request : RegionHeartbeatRequest),
       s.raftCluster = none →
       (b = true → s.validateRequest request.header = none) →
       (b = true → ∃ uid, s.idAllocRes = .ok uid) →
       (s.regionHeartbeatStep b (.msg request)).1 = .cont false ∧
       ingests (s.regionHeartbeatStep b (.msg request)).2 = [] ∧
       scheds (s.regionHeartbeatStep b (.msg request)).2 = [] ∧
       pushedErrTypes (s.regionHeartbeatStep b (.msg request)).2 = [some .UNKNOWN] ∧
       pushedErrMsgs (s.regionHeartbeatStep b (.msg request)).2 =
         [some "cluster is not bootstrapped"]) := by
  refine ⟨?_, ?_, ?_, ?_, ?_, ?_, ?_, ?_, ?_, ?_⟩
  · intro s request hval hnb
    unfold Server.GetStore
    simp [hval, Server.GetRaftCluster, hnb]
  · intro s request hval hnb
    unfold Server.PutStore
    simp [hval, Server.GetRaftCluster, hnb]
  · intro s request st hval hst hnb
    unfold Server.StoreHeartbeat
    simp [hval, hst, Server.GetRaftCluster, hnb]
  · intro s request hval hnb
    unfold Server.GetRegion
    simp [hval, Server.GetRaftCluster, hnb]
  · intro s request hval hnb
    unfold Server.GetRegionByID
    simp [hval, Server.GetRaftCluster, hnb]
  · intro s request hval hnb
    unfold Server.AskSplit
    simp [hval, Server.GetRaftCluster, hnb]
  · intro s request hval hnb
    unfold Server.ReportSplit
    simp [hval, Server.GetRaftCluster, hnb]
  · intro s request hval hnb
    unfold Server.GetClusterConfig
    simp [hval, Server.GetRaftCluster, hnb]
  · intro s request hval hnb
    unfold Server.PutClusterConfig
    simp [hval, Server.GetRaftCluster, hnb]
  · intro s b request hnb hval halloc
    have hbody : ∀ pre, s.regionHeartbeatBody request pre =
        (.cont false, pre ++
          (sendErrorRegionHeartbeatResponse (mkRegionInfo request) s.clusterID
            .UNKNOWN "cluster is not bootstrapped").2) := by
      intro pre
      unfold Server.regionHeartbeatBody
      simp [sendErrorRegionHeartbeatResponse, Server.GetRaftCluster, hnb]
    cases b with
    | false =>
      have hstep : s.regionHeartbeatStep false (.msg request) =
          s.regionHeartbeatBody request [] := rfl
      rw [hstep, hbody]
      simp [ingests, scheds, pushedErrTypes, pushedErrMsgs, Effect.ingestId,
        Effect.schedId, Effect.pushedErrType, Effect.pushedErrMsg, respErrType,
        respErrMsg, sendErrorRegionHeartbeatResponse]
    | true =>
      obtain ⟨uid, huid⟩ := halloc rfl
      have hv := hval rfl
      have hstep : s.regionHeartbeatStep true (.msg request) =
          s.regionHeartbeatBody request
            [.guardCheck, .allocE,
             .watchOperatorE ((request.leader.map Peer.storeId).getD 0) uid] := by
        unfold Server.regionHeartbeatStep
        simp [hv, huid]
      rw [hstep, hbody]
      simp [ingests, scheds, pushedErrTypes, pushedErrMsgs, Effect.ingestId,
        Effect.schedId, Effect.pushedErrType, Effect.pushedErrMsg, respErrType,
        respErrMsg, sendErrorRegionHeartbeatResponse]

/-- Header claiming cluster 1, for concrete requests. -/
def hdr1 : Option RequestHeader := some { clusterId := 1 }

/-- Concrete PutStore request for witnesses. -/
def putStoreReq1 : PutStoreRequest := { header := hdr1, store := some { id := 2 } }

/-- Concrete StoreHeartbeat request for witnesses. -/
def storeHBReq1 : StoreHeartbeatRequest := { header := hdr1, stats := some sampleStats }

/-- Witness for claim C2 (amended) at concrete requests on the sample
unbootstrapped leader server, covering a unary read, a unary write, the store
heartbeat, and a stream message. -/
theorem notBootstrapped_gate_witness :
    nbServer.GetStore ({ header := hdr1, storeId := 2 }) =
      (.ok { header := nbServer.notBootstrappedHeader }, [.guardCheck]) ∧
    nbServer.PutStore putStoreReq1 =
      (.ok { header := nbServer.notBootstrappedHeader }, [.guardCheck]) ∧
    nbServer.StoreHeartbeat storeHBReq1 =
      (.ok { header := nbServer.notBootstrappedHeader }, [.guardCheck]) ∧
    nbServer.GetRegion ({ header := hdr1, regionKey := [0] }) =
      (.ok { header := nbServer.notBootstrappedHeader }, [.guardCheck]) ∧
    nbServer.GetRegionByID ({ header := hdr1, regionId := 7 }) =
      (.ok { header := nbServer.notBootstrappedHeader }, [.guardCheck]) ∧
    nbServer.AskSplit ({ header := hdr1, region := some sampleRegion }) =
      (.ok { header := nbServer.notBootstrappedHeader }, [.guardCheck]) ∧
    nbServer.ReportSplit ({ header := hdr1 }) =
      (.ok { header := nbServer.notBootstrappedHeader }, [.guardCheck]) ∧
    nbServer.GetClusterConfig ({ header := hdr1 }) =
      (.ok { header := nbServer.notBootstrappedHeader }, [.guardCheck]) ∧
    nbServer.PutClusterConfig ({ header := hdr1 }) =
      (.ok { header := nbServer.notBootstrappedHeader }, [.guardCheck]) ∧
    ((nbServer.regionHeartbeatStep true (.msg validHBReq)).1 = .cont false ∧
     ingests (nbServer.regionHeartbeatStep true (.msg validHBReq)).2 = [] ∧
     scheds (nbServer.regionHeartbeatStep true (.msg validHBReq)).2 = [] ∧
     pushedErrTypes (nbServer.regionHeartbeatStep true (.msg validHBReq)).2 =
       [some .UNKNOWN] ∧
     pushedErrMsgs (nbServer.regionHeartbeatStep true (.msg validHBReq)).2 =
       [some "cluster is not bootstrapped"]) :=
  ⟨notBootstrapped_gate.1 nbServer _ (by decide) rfl,
   notBootstrapped_gate.2.1 nbServer _ (by decide) rfl,
   notBootstrapped_gate.2.2.1 nbServer _ sampleStats (by decide) rfl rfl,
   notBootstrapped_gate.2.2.2.1 nbServer _ (by decide) rfl,
   notBootstrapped_gate.2.2.2.2.1 nbServer _ (by decide) rfl,
   notBootstrapped_gate.2.2.2.2.2.1 nbServer _ (by decide) rfl,
   notBootstrapped_gate.2.2.2.2.2.2.1 nbServer _ (by decide) rfl,
   notBootstrapped_gate.2.2.2.2.2.2.2.1 nbServer _ (by decide) rfl,
   notBootstrapped_gate.2.2.2.2.2.2.2.2.1 nbServer _ (by decide) rfl,
   notBootstrapped_gate.2.2.2.2.2.2.2.2.2 nbServer true validHBReq rfl
     (fun _ => by decide) (fun _ => ⟨5, rfl⟩)⟩

theorem regionHeartbeatBody_effs (s : Server) (request : RegionHeartbeatRequest)
    (pre : List Effect) : (s.regionHeartbeatBody request pre).2 =
      pre ++ (s.regionHeartbeatBody request []).2 := by
  unfold Server.regionHeartbeatBody
  simp only [sendErrorRegionHeartbeatResponse]
  repeat' split
  all_goals simp [List.append_assoc]

theorem regionHeartbeatStep_true_msg (s : Server) (request : RegionHeartbeatRequest) :
    s.regionHeartbeatStep true (.msg request) =
      match s.validateRequest request.header with
      | some e => (.ret (some e), [.guardCheck])
      | none =>
        match s.idAllocRes with
        | .error e => (.ret (some (.str e)), [.guardCheck, .allocE])
        | .ok uid =>
          s.regionHeartbeatBody request
            [.guardCheck, .allocE,
             .watchOperatorE ((request.leader.map Peer.storeId).getD 0) uid] := rfl

/-- Counterexample to claim C3 as stated: GetMembers never invokes the Cluster
Identity Guard.  On the sample server while it is NOT the leader, GetMembers
still reads the membership and leader state and answers successfully, with no
guard check anywhere in its collaborator trace. -/
theorem getMembers_no_guard_counterexample :
    (followerServer.GetMembers ({ header := none })).2 =
      [.getMembersE, .getLeaderE] ∧
    Effect.guardCheck ∉ (followerServer.GetMembers ({ header := none })).2 ∧
    (followerServer.GetMembers ({ header := none })).1 =
      .ok { header := { clusterId := 1 }, members := [1, 2], leader := 1 } :=
  ⟨rfl, by decide, rfl⟩

/-- Claim C3 (amended): every unary and streaming RPC entry point except
GetMembers — Bootstrap, IsBootstrapped, AllocID, GetStore, PutStore,
StoreHeartbeat, GetRegion, GetRegionByID, AskSplit, ReportSplit,
GetClusterConfig, PutClusterConfig, Tso (each message) and RegionHeartbeat
(first message) — invokes the Cluster Identity Guard before any other
collaborator call (the guard check is the first effect of its trace), and a
guard rejection short-circuits the handler with the guard's transport error and
no further collaborator call.  GetMembers invokes no guard at all. -/
theorem guard_before_state_access :
    (∀ (s : Server) (request : GetMembersRequest),
       Effect.guardCheck ∉ (s.GetMembers request).2) ∧
    (∀ (s : Server) (request : BootstrapRequest),
       (s.Bootstrap request).2.2.head? = some .guardCheck ∧
       ∀ e, s.validateRequest request.header = some e →
         s.Bootstrap request = (.error e, s, [.guardCheck])) ∧
    (∀ (s : Server) (request : IsBootstrappedRequest),
       (s.IsBootstrapped request).2.head? = some .guardCheck ∧
       ∀ e, s.validateRequest request.header = some e →
         s.IsBootstrapped request = (.error e, [.guardCheck])) ∧
    (∀ (s : Server) (request : AllocIDRequest),
       (s.AllocID request).2.head? = some .guardCheck ∧
       ∀ e, s.validateRequest request.header = some e →
         s.AllocID request = (.error e, [.guardCheck])) ∧
    (∀ (s : Server) (request : GetStoreRequest),
       (s.GetStore request).2.head? = some .guardCheck ∧
       ∀ e, s.validateRequest request.header = some e →
         s.GetStore request = (.error e, [.guardCheck])) ∧
    (∀ (s : Server) (request : PutStoreRequest),
       (s.PutStore request).2.head? = some .guardCheck ∧
       ∀ e, s.validateRequest request.header = some e →
         s.PutStore request = (.error e, [.guardCheck])) ∧
    (∀ (s : Server) (request : StoreHeartbeatRequest),
       (s.StoreHeartbeat request).2.head? = some .guardCheck ∧
       ∀ e, s.validateRequest request.header = some e →
         s.StoreHeartbeat request = (.error e, [.guardCheck])) ∧
    (∀ (s : Server) (request : GetRegionRequest),
       (s.GetRegion request).2.head? = some .guardCheck ∧
       ∀ e, s.validateRequest request.header = some e →
         s.GetRegion request = (.error e, [.guardCheck])) ∧
    (∀ (s : Server) (request : GetRegionByIDRequest),
       (s.GetRegionByID request).2.head? = some .guardCheck ∧
       ∀ e, s.validateRequest request.header = some e →
         s.GetRegionByID request = (.error e, [.guardCheck])) ∧
    (∀ (s : Server) (request : AskSplitRequest),
       (s.AskSplit request).2.head? = some .guardCheck ∧
       ∀ e, s.validateRequest request.header = some e →
         s.AskSplit request = (.error e, [.guardCheck])) ∧
    (∀ (s : Server) (request : ReportSplitRequest),
       (s.ReportSplit request).2.head? = some .guardCheck ∧
       ∀ e, s.validateRequest request.header = some e →
         s.ReportSplit request = (.error e, [.guardCheck])) ∧
    (∀ (s : Server) (request : GetClusterConfigRequest),
       (s.GetClusterConfig request).2.head? = some .guardCheck ∧
       ∀ e, s.validateRequest request.header = some e →
         s.GetClusterConfig request = (.error e, [.guardCheck])) ∧
    (∀ (s : Server) (request : PutClusterConfigRequest),
       (s.PutClusterConfig request).2.head? = some .guardCheck ∧
       ∀ e, s.validateRequest request.header = some e →
         s.PutClusterConfig request = (.error e, [.guardCheck])) ∧
    (∀ (s : Server) (request : TsoRequest) (sres : Option String)
        (rest : List TsoEvent),
       (s.tsoRun (.msg request sres :: rest)).2.head? = some .guardCheck ∧
       ∀ e, s.validateRequest request.header = some e →
         s.tsoRun (.msg request sres :: rest) = (some (some e), [.guardCheck])) ∧
    (∀ (s : Server) (request : RegionHeartbeatRequest),
       (s.regionHeartbeatStep true (.msg request)).2.head? = some .guardCheck ∧
       ∀ e, s.validateRequest request.header = some e →
         s.regionHeartbeatStep true (.msg request) = (.ret (some e), [.guardCheck])) := by
  refine ⟨?_, ?_, ?_, ?_, ?_, ?_, ?_, ?_, ?_, ?_, ?_, ?_, ?_, ?_, ?_⟩
  · intro s request
    unfold Server.GetMembers
    repeat' split
    all_goals simp
  · intro s request
    refine ⟨?_, fun e he => ?_⟩
    · unfold Server.Bootstrap
      repeat' split
      all_goals rfl
    · unfold Server.Bootstrap
      simp [he]
  · intro s request
    refine ⟨?_, fun e he => ?_⟩
    · unfold Server.IsBootstrapped
      repeat' split
      all_goals rfl
    · unfold Server.IsBootstrapped
      simp [he]
  · intro s request
    refine ⟨?_, fun e he => ?_⟩
    · unfold Server.AllocID
      repeat' split
      all_goals rfl
    · unfold Server.AllocID
      simp [he]
  · intro s request
    refine ⟨?_, fun e he => ?_⟩
    · unfold Server.GetStore
      repeat' split
      all_goals rfl
    · unfold Server.GetStore
      simp [he]
  · intro s request
    refine ⟨?_, fun e he => ?_⟩
    · unfold Server.PutStore
      dsimp only
      repeat' split
      all_goals rfl
    · unfold Server.PutStore
      simp [he]
  · intro s request
    refine ⟨?_, fun e he => ?_⟩
    · unfold Server.StoreHeartbeat
      repeat' split
      all_goals rfl
    · unfold Server.StoreHeartbeat
      simp [he]
  · intro s request
    refine ⟨?_, fun e he => ?_⟩
    · unfold Server.GetRegion
      repeat' split
      all_goals rfl
    · unfold Server.GetRegion
      simp [he]
  · intro s request
    refine ⟨?_, fun e he => ?_⟩
    · unfold Server.GetRegionByID
      repeat' split
      all_goals rfl
    · unfold Server.GetRegionByID
      simp [he]
  · intro s request
    refine ⟨?_, fun e he => ?_⟩
    · unfold Server.AskSplit
      repeat' split
      all_goals rfl
    · unfold Server.AskSplit
      simp [he]
  · intro s request
    refine ⟨?_, fun e he => ?_⟩
    · unfold Server.ReportSplit
      repeat' split
      all_goals rfl
    · unfold Server.ReportSplit
      simp [he]
  · intro s request
    refine ⟨?_, fun e he => ?_⟩
    · unfold Server.GetClusterConfig
      repeat' split
      all_goals rfl
    · unfold Server.GetClusterConfig
      simp [he]
  · intro s request
    refine ⟨?_, fun e he => ?_⟩
    · unfold Server.PutClusterConfig
      dsimp only
      repeat' split
      all_goals rfl
    · unfold Server.PutClusterConfig
      simp [he]
  · intro s request sres rest
    refine ⟨?_, fun e he => ?_⟩
    · simp only [Server.tsoRun]
      repeat' split
      all_goals rfl
    · simp [Server.tsoRun, he]
  · intro s request
    refine ⟨?_, fun e he => ?_⟩
    · rw [regionHeartbeatStep_true_msg]
      cases hv : s.validateRequest request.header with
      | some e => rfl
      | none =>
        cases ha : s.idAllocRes with
        | error e => rfl
        | ok uid =>
          rw [regionHeartbeatBody_effs]
          rfl
    · rw [regionHeartbeatStep_true_msg, he]

/-- Witness for claim C3 (amended) on the sample non-leader server: each
guarded entry point rejects with the not-leader transport error and a trace of
only the guard check, and GetMembers has no guard check in its trace. -/
theorem guard_before_state_access_witness :
    Effect.guardCheck ∉ (followerServer.GetMembers ({ header := hdr1 })).2 ∧
    followerServer.Bootstrap ({ header := hdr1 }) =
      (.error notLeaderError, followerServer, [.guardCheck]) ∧
    followerServer.IsBootstrapped ({ header := hdr1 }) =
      (.error notLeaderError, [.guardCheck]) ∧
    followerServer.AllocID ({ header := hdr1 }) =
      (.error notLeaderError, [.guardCheck]) ∧
    followerServer.GetStore ({ header := hdr1, storeId := 2 }) =
      (.error notLeaderError, [.guardCheck]) ∧
    followerServer.PutStore putStoreReq1 =
      (.error notLeaderError, [.guardCheck]) ∧
    followerServer.StoreHeartbeat storeHBReq1 =
      (.error notLeaderError, [.guardCheck]) ∧
    followerServer.GetRegion ({ header := hdr1 }) =
      (.error notLeaderError, [.guardCheck]) ∧
    followerServer.GetRegionByID ({ header := hdr1, regionId := 7 }) =
      (.error notLeaderError, [.guardCheck]) ∧
    followerServer.AskSplit ({ header := hdr1, region := some sampleRegion }) =
      (.error notLeaderError, [.guardCheck]) ∧
    followerServer.ReportSplit ({ header := hdr1 }) =
      (.error notLeaderError, [.guardCheck]) ∧
    followerServer.GetClusterConfig ({ header := hdr1 }) =
      (.error notLeaderError, [.guardCheck]) ∧
    followerServer.PutClusterConfig ({ header := hdr1 }) =
      (.error notLeaderError, [.guardCheck]) ∧
    followerServer.tsoRun [.msg tsoReq1 none] =
      (some (some notLeaderError), [.guardCheck]) ∧
    followerServer.regionHeartbeatStep true (.msg validHBReq) =
      (.ret (some notLeaderError), [.guardCheck]) :=
  ⟨guard_before_state_access.1 followerServer _,
   (guard_before_state_access.2.1 followerServer _).2 notLeaderError (by decide),
   (guard_before_state_access.2.2.1 followerServer _).2 notLeaderError (by decide),
   (guard_before_state_access.2.2.2.1 followerServer _).2 notLeaderError (by decide),
   (guard_before_state_access.2.2.2.2.1 followerServer _).2 notLeaderError (by decide),
   (guard_before_state_access.2.2.2.2.2.1 followerServer _).2 notLeaderError (by decide),
   (guard_before_state_access.2.2.2.2.2.2.1 followerServer _).2 notLeaderError (by decide),
   (guard_before_state_access.2.2.2.2.2.2.2.1 followerServer _).2 notLeaderError (by decide),
   (guard_before_state_access.2.2.2.2.2.2.2.2.1 followerServer _).2 notLeaderError (by decide),
   (guard_before_state_access.2.2.2.2.2.2.2.2.2.1 followerServer _).2 notLeaderError (by decide),
   (guard_before_state_access.2.2.2.2.2.2.2.2.2.2.1 followerServer _).2 notLeaderError (by decide),
   (guard_before_state_access.2.2.2.2.2.2.2.2.2.2.2.1 followerServer _).2 notLeaderError (by decide),
   (guard_before_state_access.2.2.2.2.2.2.2.2.2.2.2.2.1 followerServer _).2 notLeaderError (by decide),
   (guard_before_state_access.2.2.2.2.2.2.2.2.2.2.2.2.2.1 followerServer tsoReq1 none []).2
     notLeaderError (by decide),
   (guard_before_state_access.2.2.2.2.2.2.2.2.2.2.2.2.2.2 followerServer validHBReq).2
     notLeaderError (by decide)⟩

theorem regionHeartbeatBody_no_guard (s : Server) (request : RegionHeartbeatRequest) :
    countGuard (s.regionHeartbeatBody request []).2 = 0 := by
  unfold Server.regionHeartbeatBody
  simp only [sendErrorRegionHeartbeatResponse]
  repeat' split
  all_goals simp [countGuard, List.countP_eq_zero, beq_iff_eq]

theorem regionHeartbeatBody_countGuard (s : Server) (request : RegionHeartbeatRequest)
    (pre : List Effect) :
    countGuard (s.regionHeartbeatBody request pre).2 = countGuard pre := by
  rw [regionHeartbeatBody_effs, countGuard, List.countP_append]
  have h : List.countP (fun e => e == Effect.guardCheck)
      (s.regionHeartbeatBody request []).2 = 0 := regionHeartbeatBody_no_guard s request
  rw [h, Nat.add_zero]
  rfl

theorem regionHeartbeatStep_false_countGuard (s : Server) (ev : LoopEvent) :
    countGuard (s.regionHeartbeatStep false ev).2 = 0 := by
  cases ev with
  | errChan e => rfl
  | recvEOF => rfl
  | recvErr e => rfl
  | msg request =>
    have h : s.regionHeartbeatStep false (.msg request) =
        s.regionHeartbeatBody request [] := rfl
    rw [h, regionHeartbeatBody_countGuard]
    rfl

theorem regionHeartbeatStep_true_countGuard (s : Server) (request : RegionHeartbeatRequest) :
    countGuard (s.regionHeartbeatStep true (.msg request)).2 = 1 := by
  rw [regionHeartbeatStep_true_msg]
  cases hv : s.validateRequest request.header with
  | some e => rfl
  | none =>
    cases ha : s.idAllocRes with
    | error e => rfl
    | ok uid =>
      rw [regionHeartbeatBody_countGuard]
      rfl

theorem regionHeartbeatStep_countGuard_le (s : Server) (b : Bool) (ev : LoopEvent) :
    countGuard (s.regionHeartbeatStep b ev).2 ≤ (if b then 1 else 0) := by
  cases b with
  | false => rw [regionHeartbeatStep_false_countGuard]; simp
  | true =>
    cases ev with
    | errChan e => simp [Server.regionHeartbeatStep, countGuard]
    | recvEOF => simp [Server.regionHeartbeatStep, countGuard]
    | recvErr e => simp [Server.regionHeartbeatStep, countGuard]
    | msg request => rw [regionHeartbeatStep_true_countGuard]; simp

theorem regionHeartbeatStep_cont_false (s : Server) (b : Bool) (ev : LoopEvent) (b' : Bool)
    (h : (s.regionHeartbeatStep b ev).1 = .cont b') : b' = false := by
  cases ev with
  | errChan e => exact absurd h (by simp [Server.regionHeartbeatStep])
  | recvEOF => exact absurd h (by simp [Server.regionHeartbeatStep])
  | recvErr e => exact absurd h (by simp [Server.regionHeartbeatStep])
  | msg request =>
    cases b with
    | false =>
      have h1 : s.regionHeartbeatStep false (.msg request) =
          s.regionHeartbeatBody request [] := rfl
      rw [h1, regionHeartbeatBody_cont s request []] at h
      injection h with h2
      exact h2.symm
    | true =>
      rw [regionHeartbeatStep_true_msg] at h
      cases hv : s.validateRequest request.header with
      | some e => rw [hv] at h; simp at h
      | none =>
        rw [hv] at h
        cases ha : s.idAllocRes with
        | error e => rw [ha] at h; simp at h
        | ok uid =>
          rw [ha] at h
          rw [regionHeartbeatBody_cont] at h
          injection h with h2
          exact h2.symm

theorem regionHeartbeatRun_countGuard (s : Server) (b : Bool) (evs : List LoopEvent) :
    countGuard (s.regionHeartbeatRun b evs).2 ≤ (if b then 1 else 0) := by
  induction evs generalizing b with
  | nil =>
    have h : s.regionHeartbeatRun b [] = (none, []) := rfl
    rw [h]
    simp [countGuard]
  | cons ev rest ih =>
    have hle := regionHeartbeatStep_countGuard_le s b ev
    rcases hstep : s.regionHeartbeatStep b ev with ⟨res, effs⟩
    rw [hstep] at hle
    cases res with
    | ret r =>
      have hrun : s.regionHeartbeatRun b (ev :: rest) = (some r, effs) := by
        simp [Server.regionHeartbeatRun, hstep]
      rw [hrun]
      exact hle
    | cont b' =>
      have hb' : b' = false :=
        regionHeartbeatStep_cont_false s b ev b' (by rw [hstep])
      subst hb'
      rcases hrest : s.regionHeartbeatRun false rest with ⟨r', effs'⟩
      have hrun : s.regionHeartbeatRun b (ev :: rest) = (r', effs ++ effs') := by
        simp [Server.regionHeartbeatRun, hstep, hrest]
      rw [hrun]
      have h0 : countGuard effs' = 0 := by
        have h2 := ih false
        rw [hrest] at h2
        simpa using h2
      show List.countP (fun e => e == Effect.guardCheck) (effs ++ effs') ≤ _
      rw [List.countP_append]
      have h0' : List.countP (fun e => e == Effect.guardCheck) effs' = 0 := h0
      rw [h0', Nat.add_zero]
      exact hle

/-- Counterexample to claim C4 as stated: the Tso stream invokes the Cluster
Identity Guard on every inbound message, not exactly once per stream — two
valid messages on the sample leader server produce two guard checks. -/
theorem tso_revalidates_counterexample :
    countGuard ((baseServer.tsoRun [.msg tsoReq1 none, .msg tsoReq1 none]).2) = 2 := by
  decide

/-- Claim C4 (amended): the RegionHeartbeat stream invokes the Cluster
Identity Guard at most once per stream — exactly once when the first message is
processed and never for non-first events; the Tso stream instead re-validates
every inbound message: any stream whose next event is a message performs at
least one guard check for it, and a successfully processed message contributes
exactly one guard check on top of the remaining stream's. -/
theorem stream_guard_discipline :
    (∀ (s : Server) (evs : List LoopEvent),
       countGuard (s.RegionHeartbeat evs).2 ≤ 1) ∧
    (∀ (s : Server) (request : RegionHeartbeatRequest),
       countGuard (s.regionHeartbeatStep true (.msg request)).2 = 1) ∧
    (∀ (s : Server) (ev : LoopEvent),
       countGuard (s.regionHeartbeatStep false ev).2 = 0) ∧
    (∀ (s : Server) (request : TsoRequest) (sres : Option String)
        (rest : List TsoEvent),
       1 ≤ countGuard (s.tsoRun (.msg request sres :: rest)).2) ∧
    (∀ (s : Server) (request : TsoRequest) (rest : List TsoEvent) (ts : Timestamp),
       s.validateRequest request.header = none →
       s.getRespTSRes request.count = .ok ts →
       countGuard (s.tsoRun (.msg request none :: rest)).2 =
         1 + countGuard (s.tsoRun rest).2) := by
  refine ⟨?_, regionHeartbeatStep_true_countGuard, regionHeartbeatStep_false_countGuard,
    ?_, ?_⟩
  · intro s evs
    have h := regionHeartbeatRun_countGuard s true evs
    simpa [Server.RegionHeartbeat] using h
  · intro s request sres rest
    simp only [Server.tsoRun]
    repeat' split
    all_goals simp [countGuard, List.countP_cons, beq_iff_eq]
  · intro s request rest ts hval hts
    simp only [Server.tsoRun, hval, hts]
    rcases hrest : s.tsoRun rest with ⟨r, effs⟩
    simp [hrest, countGuard, List.countP_cons, beq_iff_eq]
    omega

/-- Witness for claim C4 (amended): concrete instances on the sample leader
server — a two-message heartbeat stream performs one guard check in total,
while a Tso message stream performs one guard check per processed message. -/
theorem stream_guard_discipline_witness :
    countGuard (baseServer.RegionHeartbeat [.msg validHBReq, .msg validHBReq]).2 ≤ 1 ∧
    countGuard (baseServer.tsoRun [.msg tsoReq1 none, .msg tsoReq1 none]).2 =
      1 + countGuard (baseServer.tsoRun [.msg tsoReq1 none]).2 :=
  ⟨stream_guard_discipline.1 baseServer [.msg validHBReq, .msg validHBReq],
   stream_guard_discipline.2.2.2.2 baseServer tsoReq1 [.msg tsoReq1 none]
     ({ physical := 100, logical := 3 }) (by decide) rfl⟩

/-- Claim C5: with valid headers, bootstrapping an unbootstrapped cluster
succeeds with an error-free envelope and performs the cluster-initialization
side effect; a second Bootstrap call on the resulting server yields a
structurally successful response whose error is ALREADY_BOOTSTRAPPED, leaves
the server state unchanged, and does not perform the side effect again (the
side effect happens exactly once across the two calls). -/
theorem bootstrap_idempotent (s : Server) (request request' : BootstrapRequest)
    (c : RaftCluster)
    (hnb : s.raftCluster = none)
    (hval : s.validateRequest request.header = none)
    (hval' : s.validateRequest request'.header = none)
    (hboot : s.bootstrapRes = .ok c) :
    s.Bootstrap request =
      (.ok { header := s.header }, { s with raftCluster := some c },
       [.guardCheck, .bootstrapClusterE]) ∧
    (s.header).error = none ∧
    ({ s with raftCluster := some c } : Server).Bootstrap request' =
      (.ok { header := s.errorHeader ({ type := .ALREADY_BOOTSTRAPPED, message := "cluster is already bootstrapped" }) },
       { s with raftCluster := some c }, [.guardCheck]) := by
  have hval2 : ({ s with raftCluster := some c } : Server).validateRequest
      request'.header = none := hval'
  refine ⟨?_, rfl, ?_⟩
  · unfold Server.Bootstrap
    simp [hval, Server.GetRaftCluster, hnb, hboot]
  · unfold Server.Bootstrap
    simp [hval2, Server.GetRaftCluster, Server.errorHeader]

/-- Witness for claim C5 on the sample unbootstrapped leader server with a
concrete valid request. -/
theorem bootstrap_idempotent_witness :
    nbServer.Bootstrap ({ header := hdr1 }) =
      (.ok { header := nbServer.header },
       { nbServer with raftCluster := some sampleCluster },
       [.guardCheck, .bootstrapClusterE]) ∧
    (nbServer.header).error = none ∧
    ({ nbServer with raftCluster := some sampleCluster } : Server).Bootstrap
        ({ header := hdr1 }) =
      (.ok { header := nbServer.errorHeader ({ type := .ALREADY_BOOTSTRAPPED, message := "cluster is already bootstrapped" }) },
       { nbServer with raftCluster := some sampleCluster }, [.guardCheck]) :=
  bootstrap_idempotent nbServer ({ header := hdr1 }) ({ header := hdr1 })
    sampleCluster rfl (by decide) (by decide) rfl

/-- The STORE_TOMBSTONE domain error produced by checkStore2. -/
def tombstoneError : PbError := { type := .STORE_TOMBSTONE, message := "store is tombstone" }

/-- Claim C6: a PutStore or StoreHeartbeat request that passes the guard and
targets a store recorded as Tombstone gets a structurally successful response
whose error is STORE_TOMBSTONE, and the underlying write (putStore or
handleStoreHeartbeat) is never invoked — the trace holds only the guard check
and the pure store lookup; when the lookup errors or finds no store, the write
is attempted instead of erroring. -/
theorem store_tombstone_gate :
    (∀ (s : Server) (request : PutStoreRequest) (cluster : RaftCluster) (st : Store),
       s.validateRequest request.header = none →
       s.raftCluster = some cluster →
       cluster.GetStore ((request.store.map Store.id).getD 0) = (some st, none) →
       st.state = .Tombstone →
       s.PutStore request = (.ok { header := s.errorHeader tombstoneError },
         [.guardCheck, .getStoreE ((request.store.map Store.id).getD 0)])) ∧
    (∀ (s : Server) (request : StoreHeartbeatRequest) (cluster : RaftCluster)
        (stats : StoreStats) (st : Store),
       s.validateRequest request.header = none →
       request.stats = some stats →
       s.raftCluster = some cluster →
       cluster.GetStore stats.storeId = (some st, none) →
       st.state = .Tombstone →
       s.StoreHeartbeat request = (.ok { header := s.errorHeader tombstoneError },
         [.guardCheck, .getStoreE stats.storeId])) ∧
    (∀ (s : Server) (request : PutStoreRequest) (cluster : RaftCluster),
       s.validateRequest request.header = none →
       s.raftCluster = some cluster →
       ((cluster.GetStore ((request.store.map Store.id).getD 0)).1 = none ∨
        (cluster.GetStore ((request.store.map Store.id).getD 0)).2 ≠ none) →
       Effect.putStoreE request.store ∈ (s.PutStore request).2) ∧
    (∀ (s : Server) (request : StoreHeartbeatRequest) (cluster : RaftCluster)
        (stats : StoreStats),
       s.validateRequest request.header = none →
       request.stats = some stats →
       s.raftCluster = some cluster →
       ((cluster.GetStore stats.storeId).1 = none ∨
        (cluster.GetStore stats.storeId).2 ≠ none) →
       Effect.storeHeartbeatE (some stats) ∈ (s.StoreHeartbeat request).2) := by
  have hcheck : ∀ (cluster : RaftCluster) (i : Nat),
      ((cluster.GetStore i).1 = none ∨ (cluster.GetStore i).2 ≠ none) →
      checkStore2 cluster i = none := by
    intro cluster i h
    unfold checkStore2
    rcases hg : cluster.GetStore i with ⟨store, err⟩
    rw [hg] at h
    cases store with
    | none => cases err <;> rfl
    | some st =>
      cases err with
      | none =>
        rcases h with h | h
        · exact absurd h (by simp)
        · exact absurd rfl h
      | some e => rfl
  refine ⟨?_, ?_, ?_, ?_⟩
  · intro s request cluster st hval hc hg hts
    unfold Server.PutStore
    have hcs : checkStore2 cluster ((request.store.map Store.id).getD 0) =
        some tombstoneError := by
      unfold checkStore2
      rw [hg]
      simp [hts, tombstoneError]
    simp [hval, Server.GetRaftCluster, hc, hcs]
  · intro s request cluster stats st hval hstats hc hg hts
    unfold Server.StoreHeartbeat
    have hcs : checkStore2 cluster stats.storeId = some tombstoneError := by
      unfold checkStore2
      rw [hg]
      simp [hts, tombstoneError]
    simp [hval, hstats, Server.GetRaftCluster, hc, hcs]
  · intro s request cluster hval hc hlook
    unfold Server.PutStore
    have hcs := hcheck cluster ((request.store.map Store.id).getD 0) hlook
    simp only [hval, Server.GetRaftCluster, hc, hcs]
    cases cluster.putStore request.store <;> simp
  · intro s request cluster stats hval hstats hc hlook
    unfold Server.StoreHeartbeat
    have hcs := hcheck cluster stats.storeId hlook
    simp only [hval, hstats, Server.GetRaftCluster, hc, hcs]
    cases cluster.cachedCluster.handleStoreHeartbeat (some stats) <;> simp

/-- Witness for claim C6 on concrete servers: the tombstoned sample cluster
rejects PutStore and StoreHeartbeat with STORE_TOMBSTONE and no write, and a
cluster whose lookup finds no store proceeds to the write. -/
theorem store_tombstone_gate_witness :
    tombServer.PutStore putStoreReq1 =
      (.ok { header := tombServer.errorHeader tombstoneError },
       [.guardCheck, .getStoreE 2]) ∧
    tombServer.StoreHeartbeat storeHBReq1 =
      (.ok { header := tombServer.errorHeader tombstoneError },
       [.guardCheck, .getStoreE 1]) ∧
    Effect.putStoreE putStoreReq1.store ∈ (noStoreServer.PutStore putStoreReq1).2 ∧
    Effect.storeHeartbeatE (some sampleStats) ∈
      (noStoreServer.StoreHeartbeat storeHBReq1).2 :=
  ⟨store_tombstone_gate.1 tombServer putStoreReq1 tombCluster
     ({ id := 2, state := .Tombstone }) (by decide) rfl rfl rfl,
   store_tombstone_gate.2.1 tombServer storeHBReq1 tombCluster sampleStats
     ({ id := 1, state := .Tombstone }) (by decide) rfl rfl rfl rfl,
   store_tombstone_gate.2.2.1 noStoreServer putStoreReq1 noStoreCluster
     (by decide) rfl (Or.inl rfl),
   store_tombstone_gate.2.2.2 noStoreServer storeHBReq1 noStoreCluster sampleStats
     (by decide) rfl rfl (Or.inl rfl)⟩

/-- Claim C7: the Cluster Identity Guard fails with the transport-level
not-leader error whenever the server is not the leader; when it is the leader
but the header's cluster id differs from the server's, it fails with a
transport-level FailedPrecondition error whose message carries both the
expected and the received cluster ids; when it is the leader and the id
matches, it succeeds.  On either rejection no cluster state is touched: the
mutating handlers short-circuit with only the guard check in their trace and,
for Bootstrap, an unchanged server. -/
theorem validateRequest_spec :
    (∀ (s : Server) (h : Option RequestHeader),
       s.IsLeader = false → s.validateRequest h = some notLeaderError) ∧
    (∀ (s : Server) (h : Option RequestHeader),
       s.IsLeader = true → getClusterId h ≠ s.clusterID →
       s.validateRequest h = some (.grpc .FailedPrecondition
         (mismatchClusterMessage s.clusterID (getClusterId h)))) ∧
    (∀ (s : Server) (h : Option RequestHeader),
       s.IsLeader = true → getClusterId h = s.clusterID →
       s.validateRequest h = none) ∧
    (∀ (s : Server) (request : PutStoreRequest) (e : GoError),
       s.validateRequest request.header = some e →
       s.PutStore request = (.error e, [.guardCheck])) ∧
    (∀ (s : Server) (request : StoreHeartbeatRequest) (e : GoError),
       s.validateRequest request.header = some e →
       s.StoreHeartbeat request = (.error e, [.guardCheck])) ∧
    (∀ (s : Server) (request : PutClusterConfigRequest) (e : GoError),
       s.validateRequest request.header = some e →
       s.PutClusterConfig request = (.error e, [.guardCheck])) ∧
    (∀ (s : Server) (request : BootstrapRequest) (e : GoError),
       s.validateRequest request.header = some e →
       s.Bootstrap request = (.error e, s, [.guardCheck])) := by
  refine ⟨?_, ?_, ?_, ?_, ?_, ?_, ?_⟩
  · intro s h hl
    unfold Server.validateRequest
    simp [hl]
  · intro s h hl hne
    unfold Server.validateRequest
    simp [hl, hne]
  · intro s h hl heq
    unfold Server.validateRequest
    simp [hl, heq]
  · intro s request e he
    unfold Server.PutStore
    simp [he]
  · intro s request e he
    unfold Server.StoreHeartbeat
    simp [he]
  · intro s request e he
    unfold Server.PutClusterConfig
    simp [he]
  · intro s request e he
    unfold Server.Bootstrap
    simp [he]

/-- Witness for claim C7 at concrete servers: the follower rejects with the
not-leader error, the leader rejects a mismatched cluster id with the
diagnostic carrying both ids, the leader accepts a matching id, and a rejected
PutStore and Bootstrap leave only the guard check in their traces. -/
theorem validateRequest_spec_witness :
    followerServer.validateRequest hdr1 = some notLeaderError ∧
    baseServer.validateRequest (some { clusterId := 2 }) =
      some (.grpc .FailedPrecondition (mismatchClusterMessage 1 2)) ∧
    baseServer.validateRequest hdr1 = none ∧
    followerServer.PutStore putStoreReq1 = (.error notLeaderError, [.guardCheck]) ∧
    followerServer.Bootstrap ({ header := hdr1 }) =
      (.error notLeaderError, followerServer, [.guardCheck]) :=
  ⟨validateRequest_spec.1 followerServer hdr1 rfl,
   validateRequest_spec.2.1 baseServer (some { clusterId := 2 }) rfl (by decide),
   validateRequest_spec.2.2.1 baseServer hdr1 rfl rfl,
   validateRequest_spec.2.2.2.1 followerServer putStoreReq1 notLeaderError (by decide),
   validateRequest_spec.2.2.2.2.2.2 followerServer ({ header := hdr1 })
     notLeaderError (by decide)⟩

/-- Claim C8: every instruction the pusher takes from the watch subscription is
written and its outcome — success or failure — is reported back through that
instruction's dedicated acknowledgement slot, the pair appearing adjacently in
the trace; a failed write is additionally signalled on the shared error channel
and the pusher stops — nothing at all is emitted after the signal, so no
further instruction is pushed on the stream by this layer. -/
theorem push_ack_protocol :
    (∀ (s : Server) (evs : List PusherEvent),
       pusherTraceOk s.header (s.pushRegionHeartbeatResponse evs) = true) ∧
    (∀ (s : Server) (evs : List PusherEvent),
       stopsAfterSignal (s.pushRegionHeartbeatResponse evs) = true) := by
  constructor
  · intro s evs
    induction evs with
    | nil => rfl
    | cons ev rest ih =>
      cases ev with
      | ctxDone => rfl
      | instr resp sres =>
        cases sres with
        | none => simp [Server.pushRegionHeartbeatResponse, pusherTraceOk, ih]
        | some e => simp [Server.pushRegionHeartbeatResponse, pusherTraceOk]
  · intro s evs
    induction evs with
    | nil => rfl
    | cons ev rest ih =>
      cases ev with
      | ctxDone => rfl
      | instr resp sres =>
        cases sres with
        | none => simpa [Server.pushRegionHeartbeatResponse, stopsAfterSignal] using ih
        | some e => simp [Server.pushRegionHeartbeatResponse, stopsAfterSignal]

/-- The header of a handler's structurally successful response carries the
given cluster id; vacuous on a transport failure, which carries no response. -/
def okHeaderHasId {α : Type} (getHeader : α → ResponseHeader) (cid : Nat) :
    Except GoError α → Prop
  | .ok r => (getHeader r).clusterId = cid
  | .error _ => True

theorem headersOk_append (cid : Nat) (a b : List Effect) :
    headersOk cid (a ++ b) = (headersOk cid a && headersOk cid b) := by
  simp [headersOk, List.all_append]

theorem regionHeartbeatBody_headersOk (s : Server) (request : RegionHeartbeatRequest) :
    headersOk s.clusterID (s.regionHeartbeatBody request []).2 = true := by
  unfold Server.regionHeartbeatBody
  simp only [sendErrorRegionHeartbeatResponse]
  repeat' split
  all_goals simp [headersOk, Effect.headerId]

theorem tsoRun_headersOk (s : Server) (evs : List TsoEvent) :
    headersOk s.clusterID (s.tsoRun evs).2 = true := by
  induction evs with
  | nil => rfl
  | cons ev rest ih =>
    cases ev with
    | recvEOF => rfl
    | recvErr e => rfl
    | msg request sres =>
      cases hv : s.validateRequest request.header with
      | some e => simp [Server.tsoRun, hv, headersOk, Effect.headerId]
      | none =>
        cases ht : s.getRespTSRes request.count with
        | error e => simp [Server.tsoRun, hv, ht, headersOk, Effect.headerId]
        | ok ts =>
          cases sres with
          | some e =>
            simp [Server.tsoRun, hv, ht, headersOk, Effect.headerId, Server.header]
          | none =>
            rcases hrest : s.tsoRun rest with ⟨r, effs⟩
            rw [hrest] at ih
            simp [Server.tsoRun, hv, ht, hrest, headersOk, Effect.headerId,
              Server.header]
            simpa [headersOk, Effect.headerId] using ih

/-- Claim C9: every response header produced by this layer carries a cluster
id equal to the server's own configured identity — the three header builders,
the successful response of every unary handler, the response of every Tso
message, every instruction pushed back through sendToWatcher during the
heartbeat receive loop (the synthesized error instructions in particular), and
every instruction written to the stream by the pusher. -/
theorem response_headers_carry_cluster_id :
    (∀ (s : Server), (s.header).clusterId = s.clusterID) ∧
    (∀ (s : Server) (e : PbError), (s.errorHeader e).clusterId = s.clusterID) ∧
    (∀ (s : Server), (s.notBootstrappedHeader).clusterId = s.clusterID) ∧
    (∀ (region : RegionInfo) (cid : Nat) (ty : ErrorType) (msg : String),
       headersOk cid (sendErrorRegionHeartbeatResponse region cid ty msg).2 = true) ∧
    (∀ (s : Server) (request : GetMembersRequest),
       okHeaderHasId GetMembersResponse.header s.clusterID (s.GetMembers request).1) ∧
    (∀ (s : Server) (request : BootstrapRequest),
       okHeaderHasId BootstrapResponse.header s.clusterID (s.Bootstrap request).1) ∧
    (∀ (s : Server) (request : IsBootstrappedRequest),
       okHeaderHasId IsBootstrappedResponse.header s.clusterID (s.IsBootstrapped request).1) ∧
    (∀ (s : Server) (request : AllocIDRequest),
       okHeaderHasId AllocIDResponse.header s.clusterID (s.AllocID request).1) ∧
    (∀ (s : Server) (request : GetStoreRequest),
       okHeaderHasId GetStoreResponse.header s.clusterID (s.GetStore request).1) ∧
    (∀ (s : Server) (request : PutStoreRequest),
       okHeaderHasId PutStoreResponse.header s.clusterID (s.PutStore request).1) ∧
    (∀ (s : Server) (request : StoreHeartbeatRequest),
       okHeaderHasId StoreHeartbeatResponse.header s.clusterID (s.StoreHeartbeat request).1) ∧
    (∀ (s : Server) (request : GetRegionRequest),
       okHeaderHasId GetRegionResponse.header s.clusterID (s.GetRegion request).1) ∧
    (∀ (s : Server) (request : GetRegionByIDRequest),
       okHeaderHasId GetRegionResponse.header s.clusterID (s.GetRegionByID request).1) ∧
    (∀ (s : Server) (request : AskSplitRequest),
       okHeaderHasId AskSplitResponse.header s.clusterID (s.AskSplit request).1) ∧
    (∀ (s : Server) (request : ReportSplitRequest),
       okHeaderHasId ReportSplitResponse.header s.clusterID (s.ReportSplit request).1) ∧
    (∀ (s : Server) (request : GetClusterConfigRequest),
       okHeaderHasId GetClusterConfigResponse.header s.clusterID (s.GetClusterConfig request).1) ∧
    (∀ (s : Server) (request : PutClusterConfigRequest),
       okHeaderHasId PutClusterConfigResponse.header s.clusterID (s.PutClusterConfig request).1) ∧
    (∀ (s : Server) (evs : List TsoEvent),
       headersOk s.clusterID (s.tsoRun evs).2 = true) ∧
    (∀ (s : Server) (b : Bool) (ev : LoopEvent),
       headersOk s.clusterID (s.regionHeartbeatStep b ev).2 = true) ∧
    (∀ (s : Server) (evs : List PusherEvent),
       pushSentHeadersOk s.clusterID (s.pushRegionHeartbeatResponse evs) = true) := by
  refine ⟨fun s => rfl, fun s e => rfl, fun s => rfl, ?_, ?_, ?_, ?_, ?_, ?_, ?_, ?_,
    ?_, ?_, ?_, ?_, ?_, ?_, tsoRun_headersOk, ?_, ?_⟩
  · intro region cid ty msg
    simp [sendErrorRegionHeartbeatResponse, headersOk, Effect.headerId]
  · intro s request
    unfold Server.GetMembers
    repeat' split
    all_goals trivial
  · intro s request
    unfold Server.Bootstrap
    dsimp only
    repeat' split
    all_goals trivial
  · intro s request
    unfold Server.IsBootstrapped
    repeat' split
    all_goals trivial
  · intro s request
    unfold Server.AllocID
    repeat' split
    all_goals trivial
  · intro s request
    unfold Server.GetStore
    repeat' split
    all_goals trivial
  · intro s request
    unfold Server.PutStore
    dsimp only
    repeat' split
    all_goals trivial
  · intro s request
    unfold Server.StoreHeartbeat
    repeat' split
    all_goals trivial
  · intro s request
    unfold Server.GetRegion
    repeat' split
    all_goals trivial
  · intro s request
    unfold Server.GetRegionByID
    repeat' split
    all_goals trivial
  · intro s request
    unfold Server.AskSplit
    repeat' split
    all_goals trivial
  · intro s request
    unfold Server.ReportSplit
    repeat' split
    all_goals trivial
  · intro s request
    unfold Server.GetClusterConfig
    repeat' split
    all_goals trivial
  · intro s request
    unfold Server.PutClusterConfig
    dsimp only
    repeat' split
    all_goals trivial
  · intro s b ev
    cases ev with
    | errChan e => rfl
    | recvEOF => rfl
    | recvErr e => rfl
    | msg request =>
      cases b with
      | false => exact regionHeartbeatBody_headersOk s request
      | true =>
        rw [regionHeartbeatStep_true_msg]
        cases hv : s.validateRequest request.header with
        | some e => rfl
        | none =>
          cases ha : s.idAllocRes with
          | error e => rfl
          | ok uid =>
            rw [regionHeartbeatBody_effs, headersOk_append,
              regionHeartbeatBody_headersOk s request]
            simp [headersOk, Effect.headerId]
  · intro s evs
    induction evs with
    | nil => rfl
    | cons ev rest ih =>
      cases ev with
      | ctxDone => rfl
      | instr resp sres =>
        cases sres with
        | none =>
          simp [Server.pushRegionHeartbeatResponse, pushSentHeadersOk,
            Server.header, ih]
          simpa [pushSentHeadersOk] using ih
        | some e =>
          simp [Server.pushRegionHeartbeatResponse, pushSentHeadersOk, Server.header]

end PD
